import Mathlib

/-!
Verification of the writing-mirror hybrid retrieval-and-ranking pipeline.

This file gives a shallow embedding, in Lean 4, of the scoring, curation and
suggestion-synthesis code of the repository:

* `app/services/hybrid_search_engine.py` (`HybridSearchEngine`,
  `ContextAwareScoring`, `SearchResult`),
* `app/services/context_suggestion_engine.py` (`ContextSuggestionEngine`,
  `WritingSuggestion`),
* `app/services/vector_service.py` (`VectorService.store_vectors`).

Python floats are modelled as exact rationals (`ℚ`, written with `mkRat` so
that terms evaluate inside the kernel); Python strings as Lean `String`s,
with the handful of Python `str` operations the code uses re-implemented on
`List Char` by structural recursion so that concrete runs of the pipeline
can be evaluated by `decide`.  External collaborators (the Qdrant client,
the embedding model, `datetime.now`) are not part of the embedded code: the
functions below start from the data those collaborators return (retrieved
candidates with raw scores, a candidate's age in days, and so on).
-/

/-! ## Python string primitives

Each helper mirrors one Python `str` operation used by the embedded code.
-/

/-- Python `sub in s` on character lists: `needle` occurs contiguously in
`hay` (an empty needle always occurs). -/
def hasSubstr : List Char → List Char → Bool
  | [], needle => needle.isEmpty
  | hay@(_ :: t), needle => needle.isPrefixOf hay || hasSubstr t needle

/-- Python `pat in s` (substring containment). -/
def pyContains (s pat : String) : Bool :=
  hasSubstr s.toList pat.toList

/-- Python `s.lower()` (ASCII case folding, which is all the source data
uses). -/
def pyLower (s : String) : String :=
  (s.toList.map Char.toLower).asString

/-- Accumulator-based splitting of a character list into maximal runs of
non-whitespace characters, as Python `s.split()` does (runs of whitespace
separate words, empty words are dropped). -/
def splitWordsAux : List Char → List Char → List (List Char)
  | [], acc => match acc with
    | [] => []
    | _ => [acc.reverse]
  | c :: t, acc =>
    if c.isWhitespace then
      match acc with
      | [] => splitWordsAux t []
      | _ => acc.reverse :: splitWordsAux t []
    else splitWordsAux t (c :: acc)

/-- Python `s.split()` with no argument: split on whitespace runs, no empty
entries. -/
def pySplit (s : String) : List String :=
  (splitWordsAux s.toList []).map List.asString

/-- Splitting on a single separator character, keeping empty parts, as
Python `s.split('.')` does. -/
def splitOnCharAux (sep : Char) : List Char → List Char → List (List Char)
  | [], acc => [acc.reverse]
  | c :: t, acc =>
    if c = sep then acc.reverse :: splitOnCharAux sep t []
    else splitOnCharAux sep t (c :: acc)

/-- Python `s.split(sep)` for a one-character separator. -/
def pySplitOn (s : String) (sep : Char) : List String :=
  (splitOnCharAux sep s.toList []).map List.asString

/-- Characters of `cs` with leading and trailing whitespace removed. -/
def trimChars (cs : List Char) : List Char :=
  ((cs.dropWhile Char.isWhitespace).reverse.dropWhile Char.isWhitespace).reverse

/-- Python `s.strip()`. -/
def pyStrip (s : String) : String :=
  (trimChars s.toList).asString

/-- Python slicing `s[:n]` (by characters). -/
def pyTake (s : String) (n : Nat) : String :=
  (s.toList.take n).asString

/-- Python `s.endswith(t)`. -/
def pyEndsWith (s t : String) : Bool :=
  t.toList.isSuffixOf s.toList

/-- Python `s.startswith(t)`. -/
def pyStartsWith (s t : String) : Bool :=
  t.toList.isPrefixOf s.toList

/-- Python `' '.join(ws)` on character lists. -/
def joinWithSpace : List (List Char) → List Char
  | [] => []
  | [w] => w
  | w :: ws => w ++ ' ' :: joinWithSpace ws

/-- Python `' '.join(ws)`. -/
def pyJoinSpace (ws : List String) : String :=
  (joinWithSpace (ws.map String.toList)).asString

/-! ## Data model (hybrid_search_engine.py, lines 9-18, and vector_service.py)

A retrieved candidate's payload carries free text, a title, a source tag, an
optional timestamp and an optional content-type tag.  Timestamp parsing in
`_calculate_temporal_score` goes through `datetime` and `datetime.now()`,
which are environmental; the payload's `timestamp` is therefore modelled as
the already-computed content age in days, with `none` standing for a missing
or unparsable timestamp (both give the same neutral score in the source).
Absent dictionary keys default to the empty string, exactly as the source's
`payload.get(key, '')` calls do. -/
structure Payload where
  text : String := ""
  title : String := ""
  source : String := ""
  timestamp : Option Int := none
  content_type : String := ""
deriving DecidableEq

/-- One entry of the list returned by `VectorService.search_similar`
(vector_service.py, lines 172-182): an id, a raw similarity score and the
stored payload. -/
structure VecResult where
  id : String := ""
  score : ℚ := 0
  payload : Payload := {}
deriving DecidableEq

/-- Embeds the `factors` dictionary built by
`HybridSearchEngine._calculate_hybrid_score` (fixed keys, rational
values). -/
structure RankingFactors where
  vector_similarity : ℚ
  temporal_relevance : ℚ
  source_preference : ℚ
  content_type_match : ℚ
  engagement_score : ℚ
deriving DecidableEq

/-- Embeds the `SearchResult` dataclass of hybrid_search_engine.py. -/
structure SearchResult where
  doc_id : String
  content : String
  title : String
  source : String
  vector_score : ℚ
  final_score : ℚ
  metadata : Payload
  ranking_factors : RankingFactors
deriving DecidableEq

/-! ## `HybridSearchEngine` (hybrid_search_engine.py, lines 20-200) -/

/-- Embeds `HybridSearchEngine._calculate_temporal_score`: a step function
of the content age in days, with 0.5 for a missing or unparsable
timestamp. -/
def calculate_temporal_score (payload : Payload) : ℚ :=
  match payload.timestamp with
  | none => mkRat 1 2
  | some age_days =>
    if age_days ≤ 7 then 1
    else if age_days ≤ 30 then mkRat 8 10
    else if age_days ≤ 90 then mkRat 6 10
    else if age_days ≤ 365 then mkRat 4 10
    else mkRat 2 10

/-- Embeds `HybridSearchEngine._calculate_source_score`: context-dependent
source preference. -/
def calculate_source_score (payload : Payload) (context : String) : ℚ :=
  let source := pyLower payload.source
  let context_lower := pyLower context
  if pyContains context_lower "job" || pyContains context_lower "career" then
    if source = "gmail" then 1 else mkRat 7 10
  else if pyContains context_lower "knowledge" || pyContains context_lower "research" then
    if source = "notion" then 1 else mkRat 7 10
  else mkRat 8 10

/-- Embeds the fixed `type_relationships` taxonomy of
`_calculate_content_type_score`. -/
def type_relationships : List (String × List String) :=
  [("job_related", ["career", "work", "professional"]),
   ("technical", ["development", "programming", "code"]),
   ("personal", ["communication", "conversation"]),
   ("newsletter", ["information", "updates", "news"])]

/-- Embeds `HybridSearchEngine._calculate_content_type_score`.  Python's
`if not content_type_hint` treats both `None` and the empty string as "no
hint". -/
def calculate_content_type_score (payload : Payload) (content_type_hint : Option String) : ℚ :=
  match content_type_hint with
  | none => mkRat 1 2
  | some hint =>
    if hint = "" then mkRat 1 2
    else
      let content_type := pyLower payload.content_type
      let hint_lower := pyLower hint
      if content_type = hint_lower then 1
      else if type_relationships.any (fun rel =>
          content_type = rel.1 && rel.2.any (fun term => pyContains hint_lower term)) then mkRat 8 10
      else mkRat 3 10

/-- Embeds `HybridSearchEngine._calculate_engagement_score`; `mkRat n 1000`
is the exact value of the float division `n / 1000`. -/
def calculate_engagement_score (payload : Payload) : ℚ :=
  let content_length := payload.text.length
  let title_length := payload.title.length
  let length_score := min (mkRat content_length 1000) 1
  let title_score := if title_length > 10 then mkRat 8 10 else mkRat 1 2
  (length_score + title_score) * mkRat 1 2

/-- Total and factor breakdown returned by `_calculate_hybrid_score`. -/
structure HybridScore where
  total : ℚ
  factors : RankingFactors
deriving DecidableEq

/-- Embeds `HybridSearchEngine._calculate_hybrid_score` with the engine's
fixed weights (vector_similarity 0.6, temporal_relevance 0.15,
source_preference 0.1, content_type_match 0.1, engagement_score 0.05).
The `query` argument is passed by the source but unused there too. -/
def calculate_hybrid_score (result : VecResult) (query context : String)
    (content_type_hint : Option String) : HybridScore :=
  let payload := result.payload
  let vector_score := result.score
  let factors : RankingFactors :=
    { vector_similarity := vector_score
      temporal_relevance := calculate_temporal_score payload
      source_preference := calculate_source_score payload context
      content_type_match := calculate_content_type_score payload content_type_hint
      engagement_score := calculate_engagement_score payload }
  let total_score :=
    factors.vector_similarity * mkRat 6 10 +
    factors.temporal_relevance * mkRat 15 100 +
    factors.source_preference * mkRat 1 10 +
    factors.content_type_match * mkRat 1 10 +
    factors.engagement_score * mkRat 5 100
  { total := total_score, factors := factors }

/-- Construction of one re-ranked `SearchResult` from a raw vector result,
as done in the loop of `HybridSearchEngine.search` (lines 59-73). -/
def toSearchResult (result : VecResult) (query context : String)
    (content_type_hint : Option String) : SearchResult :=
  let hybrid_score := calculate_hybrid_score result query context content_type_hint
  { doc_id := result.id
    content := result.payload.text
    title := result.payload.title
    source := result.payload.source
    vector_score := result.score
    final_score := hybrid_score.total
    metadata := result.payload
    ranking_factors := hybrid_score.factors }

/-- Embeds the post-retrieval part of `HybridSearchEngine.search` (lines
54-82): the list `vector_results` returned by the similarity index is
re-scored, stably sorted by descending final score (Python `list.sort` is
stable; a stable sort is modelled by insertion sort placing each element
before the first element it does not strictly follow), optionally filtered
by source (`if source_filter:` also skips filtering for an empty string),
and truncated to `top_k`.  The embedding call and the index query that
produce `vector_results` are external collaborators. -/
def HybridSearchEngine.search (vector_results : List VecResult) (query context : String)
    (top_k : Nat) (source_filter : Option String) (content_type_hint : Option String) :
    List SearchResult :=
  match vector_results with
  | [] => []
  | _ =>
    let scored_results := vector_results.map (fun r => toSearchResult r query context content_type_hint)
    let sorted_results := scored_results.insertionSort (fun a b => a.final_score ≥ b.final_score)
    let filtered_results :=
      match source_filter with
      | some f => if f = "" then sorted_results else sorted_results.filter (fun r => r.source == f)
      | none => sorted_results
    filtered_results.take top_k

/-! ## `ContextAwareScoring` (hybrid_search_engine.py, lines 202-254)

Static post-hoc score adjustments.  Scores are exact rationals.
-/

/-- Embeds `ContextAwareScoring.adjust_for_query_specificity`: single-word
queries are scaled by 0.9, queries of five or more words by 1.1, others are
returned unchanged.  No clamping is performed. -/
def adjust_for_query_specificity (score : ℚ) (query : String) : ℚ :=
  let word_count := (pySplit query).length
  if word_count = 1 then score * mkRat 9 10
  else if word_count ≥ 5 then score * mkRat 11 10
  else score

/-- Embeds the `match_ratio` computation inside
`ContextAwareScoring.boost_exact_matches`: the fraction of the (lowercased)
query's words that occur among the (lowercased) content's words.  Python
raises `ZeroDivisionError` when the query has no words; `mkRat _ 0 = 0`
here, a branch no theorem below relies on. -/
def matchRatioFn (query content : String) : ℚ :=
  let query_words := pySplit (pyLower query)
  let content_words := pySplit (pyLower content)
  let num_matches := (query_words.filter (fun word => content_words.contains word)).length
  mkRat num_matches query_words.length

/-- Embeds `ContextAwareScoring.boost_exact_matches`: a verbatim
(case-insensitive) occurrence of the query in the content multiplies the
score by 1.2 capped at 1.0; otherwise a word-overlap ratio strictly above
0.7 multiplies it by 1.1, uncapped; otherwise the score is unchanged. -/
def boost_exact_matches (score : ℚ) (query content : String) : ℚ :=
  let query_lower := pyLower query
  let content_lower := pyLower content
  if pyContains content_lower query_lower then min (score * mkRat 6 5) 1
  else if matchRatioFn query content > mkRat 7 10 then score * mkRat 11 10
  else score

/-- Embeds the dictionary `source_counts` of
`ContextAwareScoring.diversify_sources` as a count function, and the scan
that keeps a result only while its source's quota is unfilled. -/
def diversifyAux (max_per_source : Nat) : List SearchResult → (String → Nat) → List SearchResult
  | [], _ => []
  | result :: rest, source_counts =>
    let current_count := source_counts result.source
    if current_count < max_per_source then
      result :: diversifyAux max_per_source rest
        (fun s => if s = result.source then current_count + 1 else source_counts s)
    else
      diversifyAux max_per_source rest source_counts

/-- Embeds `ContextAwareScoring.diversify_sources` (default cap 3, as in
the source's keyword default). -/
def diversify_sources (results : List SearchResult) (max_per_source : Nat := 3) : List SearchResult :=
  diversifyAux max_per_source results (fun _ => 0)

/-! ## `ContextSuggestionEngine` (context_suggestion_engine.py)

The engine's `__init__` registers three generator strategies per suggestion
category.  The registered enhancement strategies (`_suggest_specificity`,
`_suggest_examples`, `_suggest_tone_match`) are never defined anywhere in
the repository; see the spec-modelled stubs below.
-/

/-- Embeds the `WritingSuggestion` dataclass. -/
structure WritingSuggestion where
  text : String
  confidence : ℚ
  reasoning : String
  source_context : String
  suggestion_type : String
deriving DecidableEq

/-- Embeds the analysis dictionary built by
`ContextSuggestionEngine._analyze_current_text` (fixed keys). -/
structure TextAnalysis where
  length : Nat
  word_count : Nat
  ends_with_punctuation : Bool
  is_question : Bool
  is_list : Bool
  tone : String
  context_type : String
  last_sentence : String
  key_topics : List String
deriving DecidableEq

/-- Embeds `ContextSuggestionEngine._detect_tone`. -/
def detect_tone (text : String) : String :=
  let text_lower := pyLower text
  if ["please", "thanks", "thank you", "kindly"].any (fun word => pyContains text_lower word) then
    "polite"
  else if ["!", "excited", "amazing", "great"].any (fun word => pyContains text_lower word) then
    "enthusiastic"
  else if ["however", "unfortunately", "issue", "problem"].any (fun word => pyContains text_lower word) then
    "serious"
  else "neutral"

/-- Embeds `ContextSuggestionEngine._classify_context`. -/
def classify_context (context : String) : String :=
  let context_lower := pyLower context
  if pyContains context_lower "email" then "email"
  else if pyContains context_lower "job" || pyContains context_lower "career" then "professional"
  else if pyContains context_lower "personal" then "personal"
  else "general"

/-- Maximal runs of characters satisfying `keep`, in order (used for both
whitespace splitting and word-character runs). -/
def runsAux (keep : Char → Bool) : List Char → List Char → List (List Char)
  | [], acc => match acc with
    | [] => []
    | _ => [acc.reverse]
  | c :: t, acc =>
    if keep c then runsAux keep t (c :: acc)
    else match acc with
      | [] => runsAux keep t []
      | _ => acc.reverse :: runsAux keep t []

/-- Embeds `ContextSuggestionEngine._extract_key_topics`.  The regex
findall over `\b[a-zA-Z]{4,}\b` returns exactly the maximal word-character
runs (letters, digits, underscore) that consist solely of letters and have
length at least 4; the source's `list(set(keywords))` iterates a Python set
whose order is unspecified (hash-randomised), modelled here as
first-occurrence deduplication. -/
def extract_key_topics (text : String) : List String :=
  let runs := runsAux (fun c => c.isAlphanum || c = '_') (pyLower text).toList []
  let words := (runs.filter (fun run => run.length ≥ 4 && run.all Char.isAlpha)).map List.asString
  let stop_words : List String :=
    ["that", "this", "with", "from", "they", "have", "will", "been", "your", "what", "when", "where"]
  let keywords := words.filter (fun w => !stop_words.contains w)
  keywords.eraseDups.take 5

/-- Embeds `ContextSuggestionEngine._analyze_current_text`.  The `is_list`
check looks for the literal three-character sequence `'â€¢'` that is
committed in the source file (a mojibake-encoded bullet). -/
def analyze_current_text (text context : String) : TextAnalysis :=
  let stripped := pyStrip text
  { length := text.length
    word_count := (pySplit text).length
    ends_with_punctuation :=
      pyEndsWith stripped "." || pyEndsWith stripped "!" || pyEndsWith stripped "?"
    is_question := pyEndsWith stripped "?"
    is_list := pyContains text "â€¢" ||
      (List.range' 1 9).any (fun i => pyStartsWith stripped (toString i ++ "."))
    tone := detect_tone text
    context_type := classify_context context
    last_sentence := if pyContains text "." then pyStrip ((pySplitOn text '.').getLastD "") else stripped
    key_topics := extract_key_topics text }

/-- Embeds `Counter(items).most_common(n)`: distinct items in
first-occurrence order (a `Counter` is insertion-ordered), stably sorted by
descending count, truncated to `n`. -/
def counter_most_common (items : List String) (n : Nat) : List (String × Nat) :=
  ((items.eraseDups.map (fun p => (p, items.count p))).insertionSort
    (fun a b => a.2 ≥ b.2)).take n

/-- Embeds `ContextSuggestionEngine._rank_patterns`: frequency ranking via
`Counter.most_common(5)`. -/
def rank_patterns (patterns : List String) : List String :=
  match patterns with
  | [] => []
  | _ => (counter_most_common patterns 5).map (fun pair => pair.1)

/-- Case-insensitive literal match at the head of `cs`: returns the
consumed original characters and the remainder.  The markers below are
given in lowercase, so this is the `re.IGNORECASE` literal match. -/
def stripPrefixCI : List Char → List Char → Option (List Char × List Char)
  | [], cs => some ([], cs)
  | _ :: _, [] => none
  | m :: ms, c :: cs =>
    if c.toLower = m then
      match stripPrefixCI ms cs with
      | some (consumed, rest) => some (c :: consumed, rest)
      | none => none
    else none

/-- Lazy `.*?[.!?]` of the transition regexes: the shortest extension up to
and including the first `.`, `!` or `?`; fails on a newline first (regex `.`
does not match `\n`) or at end of input. -/
def lazyToPunct : List Char → Option (List Char × List Char)
  | [] => none
  | c :: cs =>
    if c = '.' || c = '!' || c = '?' then some ([c], cs)
    else if c = '\n' then none
    else match lazyToPunct cs with
      | some (consumed, rest) => some (c :: consumed, rest)
      | none => none

/-- Match of one transition regex `marker,?\s+.*?[.!?]` (IGNORECASE) at the
head of `cs`: the literal marker, an optional comma, at least one whitespace
character, then the lazy run to the first sentence-ending punctuation. -/
def matchTransitionAt (marker : List Char) (cs : List Char) : Option (List Char × List Char) :=
  match stripPrefixCI marker cs with
  | none => none
  | some (consumed₁, rest₁) =>
    let (consumed₂, rest₂) :=
      match rest₁ with
      | ',' :: r => ([','], r)
      | _ => ([], rest₁)
    let ws := rest₂.takeWhile Char.isWhitespace
    if ws.isEmpty then none
    else
      match lazyToPunct (rest₂.drop ws.length) with
      | none => none
      | some (consumed₃, rest₃) => some (consumed₁ ++ consumed₂ ++ ws ++ consumed₃, rest₃)

/-- Non-overlapping left-to-right scan of `re.findall` for one transition
pattern: on a match the scan resumes after it, otherwise it advances one
character.  Every step consumes at least one character, so a fuel equal to
the input length (as supplied by `find_transitions`) never runs out. -/
def findAllTransitionMatches (marker : List Char) : Nat → List Char → List String
  | 0, _ => []
  | _ + 1, [] => []
  | fuel + 1, c :: rest =>
    match matchTransitionAt marker (c :: rest) with
    | some (matched, restAfter) => matched.asString :: findAllTransitionMatches marker fuel restAfter
    | none => findAllTransitionMatches marker fuel rest

/-- Embeds `ContextSuggestionEngine._find_transitions`: `re.findall` of the
four connective-phrase patterns, results concatenated in pattern order and
truncated to 5. -/
def find_transitions (content : String) : List String :=
  let cs := content.toList
  let transition_markers : List (List Char) :=
    ["however".toList, "additionally".toList, "furthermore".toList, "on the other hand".toList]
  (transition_markers.flatMap (fun marker => findAllTransitionMatches marker cs.length cs)).take 5

/-- Embeds `ContextSuggestionEngine._extract_ngrams`: contiguous word spans
of each length in `[min_len, max_len]`, keeping those whose joined text is
longer than 10 characters. -/
def extract_ngrams (content : String) (min_len max_len : Nat) : List String :=
  let words := pySplit content
  (List.range' min_len (max_len + 1 - min_len)).flatMap (fun len =>
    (List.range (words.length + 1 - len)).filterMap (fun i =>
      let ngram := pyJoinSpace ((words.drop i).take len)
      if ngram.length > 10 then some ngram else none))

/-- Embeds `ContextSuggestionEngine._find_topic_connections`: for each
topic, the first sentence of the content that contains it (case-insensitive)
and has more than 5 words, stripped, truncated to 100 characters and
suffixed with an ellipsis. -/
def find_topic_connections (content : String) (topics : List String) : List String :=
  topics.filterMap (fun topic =>
    ((pySplitOn content '.').find? (fun sentence =>
        pyContains (pyLower sentence) (pyLower topic) && (pySplit sentence).length > 5)).map
      (fun sentence => pyTake (pyStrip sentence) 100 ++ "..."))

/-- Embeds `ContextSuggestionEngine._is_elaborative_content`. -/
def is_elaborative_content (content : String) : Bool :=
  ["for example", "specifically", "in particular", "furthermore", "additionally"].any
    (fun marker => pyContains (pyLower content) marker)

/-- Embeds `ContextSuggestionEngine._extract_elaboration_phrase`. -/
def extract_elaboration_phrase (content : String) : String :=
  match (pySplitOn content '.').find? (fun sentence =>
      ["for example", "specifically"].any (fun marker => pyContains (pyLower sentence) marker)) with
  | some sentence => pyTake (pyStrip sentence) 80 ++ "..."
  | none => ""

/-- First character index at which `needle` occurs in `hay` (Python
`str.find`, with `none` for `-1`). -/
def charIndexOfSub : List Char → List Char → Option Nat
  | [], needle => if needle.isEmpty then some 0 else none
  | hay@(_ :: t), needle =>
    if needle.isPrefixOf hay then some 0
    else (charIndexOfSub t needle).map (· + 1)

/-- Embeds `ContextSuggestionEngine._find_completion_pattern`: locate the
last two words of the incomplete text inside a sentence of the reference
content and return what follows them, if non-empty and at most 8 words. -/
def find_completion_pattern (incomplete_text reference_content : String) : String :=
  let incomplete_words := pySplit incomplete_text
  if incomplete_words.length ≥ 2 then
    let last_two_words := pyJoinSpace (incomplete_words.drop (incomplete_words.length - 2))
    ((pySplitOn reference_content '.').findSome? (fun sentence =>
      match charIndexOfSub (pyLower sentence).toList (pyLower last_two_words).toList with
      | none => none
      | some start_idx =>
        let completion := pyStrip ((sentence.toList.drop (start_idx + last_two_words.length)).asString)
        if completion ≠ "" && (pySplit completion).length ≤ 8 then some completion
        else none)).getD ""
  else ""

/-- Embeds the pattern-bucket dictionary of
`ContextSuggestionEngine._extract_writing_patterns`. -/
structure Patterns where
  common_phrases : List String
  sentence_starters : List String
  transitions : List String
  closings : List String
  tone_examples : List String
  topic_connections : List String
deriving DecidableEq

/-- Embeds `ContextSuggestionEngine._extract_writing_patterns`: buckets are
collected from the top 5 results and then frequency-ranked.  The `closings`
and `tone_examples` buckets are declared by the source but never filled. -/
def extract_writing_patterns (search_results : List SearchResult)
    (text_analysis : TextAnalysis) : Patterns :=
  let collected := (search_results.take 5).foldl
    (fun (acc : Patterns) result =>
      let content := result.content
      let sentences := ((pySplitOn content '.').map pyStrip).filter (fun s => s ≠ "")
      let starters := sentences.filterMap (fun sentence =>
        let words := pySplit sentence
        if words.length ≥ 3 then some (pyJoinSpace (words.take 3)) else none)
      let transitions := find_transitions content
      let phrases := extract_ngrams content 2 4
      let connections :=
        if text_analysis.key_topics ≠ [] then
          find_topic_connections content text_analysis.key_topics
        else []
      { acc with
        sentence_starters := acc.sentence_starters ++ starters
        transitions := acc.transitions ++ transitions
        common_phrases := acc.common_phrases ++ phrases
        topic_connections := acc.topic_connections ++ connections })
    ⟨[], [], [], [], [], []⟩
  { common_phrases := rank_patterns collected.common_phrases
    sentence_starters := rank_patterns collected.sentence_starters
    transitions := rank_patterns collected.transitions
    closings := rank_patterns collected.closings
    tone_examples := rank_patterns collected.tone_examples
    topic_connections := rank_patterns collected.topic_connections }

/-- Embeds `ContextSuggestionEngine._suggest_continuation` (the
`current_text` and `context` parameters are passed but unused, as in the
source). -/
def suggest_continuation (current_text context : String) (patterns : Patterns)
    (results : List SearchResult) : List WritingSuggestion :=
  let starter_suggestions := (patterns.sentence_starters.take 3).map (fun starter =>
    { text := starter ++ "..."
      confidence := mkRat 7 10
      reasoning := "Based on your typical sentence patterns"
      source_context := "Found in " ++
        toString (results.filter (fun r => pyContains (pyLower r.content) (pyLower starter))).length ++
        " similar documents"
      suggestion_type := "continuation" : WritingSuggestion })
  let connection_suggestions := (patterns.topic_connections.take 2).map (fun connection =>
    { text := connection
      confidence := mkRat 6 10
      reasoning := "Builds on topics from your previous writing"
      source_context := "Connected to your knowledge base"
      suggestion_type := "continuation" : WritingSuggestion })
  starter_suggestions ++ connection_suggestions

/-- Embeds `ContextSuggestionEngine._suggest_elaboration`. -/
def suggest_elaboration (current_text context : String) (patterns : Patterns)
    (results : List SearchResult) : List WritingSuggestion :=
  (results.take 2).filterMap (fun result =>
    if is_elaborative_content result.content then
      let elaboration := extract_elaboration_phrase result.content
      if elaboration ≠ "" then
        some { text := elaboration
               confidence := mkRat 6 10
               reasoning := "Elaborative pattern from your writing style"
               source_context := "From: " ++ pyTake result.title 50 ++ "..."
               suggestion_type := "elaboration" }
      else none
    else none)

/-- Embeds `ContextSuggestionEngine._suggest_transition`. -/
def suggest_transition (current_text context : String) (patterns : Patterns)
    (results : List SearchResult) : List WritingSuggestion :=
  (patterns.transitions.take 2).map (fun transition =>
    { text := transition
      confidence := mkRat 1 2
      reasoning := "Transition style from your writing"
      source_context := "Based on your typical transitions"
      suggestion_type := "transition" })

/-- Embeds `ContextSuggestionEngine._suggest_completion`: at most one
suggestion, from the first result giving a non-empty completion pattern
(the source `break`s after the first hit). -/
def suggest_completion (current_text context : String) (patterns : Patterns)
    (results : List SearchResult) : List WritingSuggestion :=
  let stripped := pyStrip current_text
  if !(pyEndsWith stripped "." || pyEndsWith stripped "!" || pyEndsWith stripped "?") then
    match results.findSome? (fun result =>
        let completion := find_completion_pattern current_text result.content
        if completion ≠ "" then some (completion, result) else none) with
    | some (completion, result) =>
      [{ text := completion
         confidence := mkRat 7 10
         reasoning := "Completion pattern from similar context"
         source_context := "Pattern from: " ++ pyTake result.title 40 ++ "..."
         suggestion_type := "completion" }]
    | none => []
  else []

/-- Embeds `ContextSuggestionEngine._suggest_closing`: last sentences of at
most 10 words, counted with `Counter.most_common(2)`. -/
def suggest_closing (current_text context : String) (patterns : Patterns)
    (results : List SearchResult) : List WritingSuggestion :=
  let closings := results.filterMap (fun result =>
    let content_sentences := pySplitOn result.content '.'
    let last_sentence := pyStrip (content_sentences.getLastD "")
    if (pySplit last_sentence).length ≤ 10 && last_sentence ≠ "" then some last_sentence
    else none)
  (counter_most_common closings 2).map (fun pair =>
    { text := pair.1
      confidence := mkRat 6 10
      reasoning := "Closing style from your writing"
      source_context := "Used " ++ toString pair.2 ++ " times in your writing"
      suggestion_type := "closing" })

/-- Leftmost match of one call-to-action regex `marker.*` (IGNORECASE):
`re.findall`'s first match, which the source keeps via `matches[:1]`.  The
greedy `.*` runs to the end of the line. -/
def findMarkerToEol (marker : List Char) : List Char → Option String
  | [] => none
  | cs@(_ :: rest) =>
    match stripPrefixCI marker cs with
    | some (consumed, restAfter) =>
      some (consumed ++ restAfter.takeWhile (fun c => c ≠ '\n')).asString
    | none => findMarkerToEol marker rest

/-- Embeds `ContextSuggestionEngine._suggest_call_to_action`: for each
result and each action pattern, the first match becomes one suggestion. -/
def suggest_call_to_action (current_text context : String) (patterns : Patterns)
    (results : List SearchResult) : List WritingSuggestion :=
  let action_markers : List String := ["let me know", "please", "would you", "could you", "feel free"]
  results.flatMap (fun result =>
    action_markers.filterMap (fun marker =>
      (findMarkerToEol marker.toList result.content.toList).map (fun matched =>
        { text := matched
          confidence := mkRat 1 2
          reasoning := "Call-to-action from your communication style"
          source_context := "From: " ++ pyTake result.title 40 ++ "..."
          suggestion_type := "call_to_action" })))

/-- Modelled from the spec: `__init__` registers `_suggest_specificity` as
an enhancement strategy, but no definition of it exists anywhere in the
repository; the spec only requires a strategy to propose "zero or more"
Suggestions, so the missing strategy is modelled as proposing none. -/
def suggest_specificity (current_text context : String) (patterns : Patterns)
    (results : List SearchResult) : List WritingSuggestion := []

/-- Modelled from the spec: `__init__` registers `_suggest_examples`, which
is likewise never defined in the repository; modelled as proposing no
suggestions. -/
def suggest_examples (current_text context : String) (patterns : Patterns)
    (results : List SearchResult) : List WritingSuggestion := []

/-- Modelled from the spec: `__init__` registers `_suggest_tone_match`,
which is likewise never defined in the repository; modelled as proposing no
suggestions. -/
def suggest_tone_match (current_text context : String) (patterns : Patterns)
    (results : List SearchResult) : List WritingSuggestion := []

/-- Embeds the `self.suggestion_patterns` dispatch dictionary built in
`ContextSuggestionEngine.__init__` together with the
`dict.get(suggestion_type, patterns['continuation'])` lookup of
`generate_suggestions`: an unknown category falls back to the continuation
strategies. -/
def suggestion_patterns_get (suggestion_type : String) :
    List (String → String → Patterns → List SearchResult → List WritingSuggestion) :=
  if suggestion_type = "continuation" then
    [suggest_continuation, suggest_elaboration, suggest_transition]
  else if suggestion_type = "completion" then
    [suggest_completion, suggest_closing, suggest_call_to_action]
  else if suggestion_type = "enhancement" then
    [suggest_specificity, suggest_examples, suggest_tone_match]
  else
    [suggest_continuation, suggest_elaboration, suggest_transition]

/-- The duplicate-removal loop at the end of
`ContextSuggestionEngine._rank_suggestions`: keep the first occurrence of
each suggestion text (`seen_texts` is the already-seen set). -/
def removeDuplicateTexts : List WritingSuggestion → List String → List WritingSuggestion
  | [], _ => []
  | suggestion :: rest, seen_texts =>
    if seen_texts.contains suggestion.text then removeDuplicateTexts rest seen_texts
    else suggestion :: removeDuplicateTexts rest (suggestion.text :: seen_texts)

/-- Embeds `ContextSuggestionEngine._rank_suggestions`: both confidence
boosts apply cumulatively (two separate `if`s in the source), then a stable
descending sort by confidence, then duplicate-text removal. -/
def rank_suggestions (suggestions : List WritingSuggestion)
    (text_analysis : TextAnalysis) : List WritingSuggestion :=
  let adjusted := suggestions.map (fun suggestion =>
    let c₁ :=
      if text_analysis.tone = "polite" && pyContains (pyLower suggestion.text) "please" then
        suggestion.confidence * mkRat 6 5
      else suggestion.confidence
    let c₂ :=
      if text_analysis.context_type = "professional" &&
          (suggestion.suggestion_type = "call_to_action" || suggestion.suggestion_type = "closing") then
        c₁ * mkRat 11 10
      else c₁
    { suggestion with confidence := c₂ })
  let sorted := adjusted.insertionSort (fun a b => a.confidence ≥ b.confidence)
  removeDuplicateTexts sorted []

/-- Embeds `ContextSuggestionEngine._generate_fallback_suggestions`. -/
def generate_fallback_suggestions (current_text context : String) : List WritingSuggestion :=
  [{ text := "continues with clear purpose and direction."
     confidence := mkRat 3 10
     reasoning := "Fallback suggestion - no similar content found"
     source_context := "Generic suggestion"
     suggestion_type := "fallback" }]

/-- Embeds `ContextSuggestionEngine.generate_suggestions`: fallback on an
empty result list, otherwise run the three strategies of the requested
category, rank, deduplicate, and return the top 3. -/
def generate_suggestions (current_text context : String) (search_results : List SearchResult)
    (suggestion_type : String := "continuation") : List WritingSuggestion :=
  match search_results with
  | [] => generate_fallback_suggestions current_text context
  | _ =>
    let text_analysis := analyze_current_text current_text context
    let patterns := extract_writing_patterns search_results text_analysis
    let suggestion_methods := suggestion_patterns_get suggestion_type
    let suggestions :=
      suggestion_methods.flatMap (fun method => method current_text context patterns search_results)
    let ranked_suggestions := rank_suggestions suggestions text_analysis
    ranked_suggestions.take 3

/-! ## `VectorService.store_vectors` (vector_service.py, lines 83-128) -/

/-- Embeds the Qdrant `PointStruct` objects built by `store_vectors`; the
payload type is left generic, as the source stores arbitrary metadata
dictionaries. -/
structure PointStruct (α : Type) where
  id : String
  vector : List ℚ
  payload : α
deriving DecidableEq

/-- Non-raising outcomes of `store_vectors`: `returnedFalse` is the early
`return False` on any empty input list, `upserted` is the successful path
carrying the points passed to the external `client.upsert` call. -/
inductive StoreVectorsResult (α : Type) where
  | returnedFalse : StoreVectorsResult α
  | upserted : List (PointStruct α) → StoreVectorsResult α
deriving DecidableEq

/-- Embeds `VectorService.store_vectors`: empty inputs return `False`
without raising; mismatched list lengths raise `ValueError` (modelled as
`Except.error` with the source's message); otherwise the zipped points are
upserted.  The external `client.upsert` call is modelled as succeeding —
exceptions it raises are logged and re-raised by the source, but belong to
the external index, not to this code. -/
def VectorService.store_vectors {α : Type} (vectors : List (List ℚ)) (ids : List String)
    (payloads : List α) : Except String (StoreVectorsResult α) :=
  if vectors.isEmpty || ids.isEmpty || payloads.isEmpty then
    .ok .returnedFalse
  else if vectors.length ≠ ids.length ∨ vectors.length ≠ payloads.length then
    .error "vectors, ids, and payloads must have the same length"
  else
    .ok (.upserted ((ids.zip (vectors.zip payloads)).map (fun triple =>
      { id := triple.1, vector := triple.2.1, payload := triple.2.2 })))

/-! ## Helper lemmas -/

/-- Unfolded form of the weighted total computed by
`_calculate_hybrid_score`. -/
theorem hybrid_total_factors (result : VecResult) (query context : String)
    (content_type_hint : Option String) :
    (calculate_hybrid_score result query context content_type_hint).total =
      result.score * mkRat 6 10 +
      calculate_temporal_score result.payload * mkRat 15 100 +
      calculate_source_score result.payload context * mkRat 1 10 +
      calculate_content_type_score result.payload content_type_hint * mkRat 1 10 +
      calculate_engagement_score result.payload * mkRat 5 100 := rfl

/-- Whatever the quota state, the diversification scan returns a sublist of
its input. -/
theorem diversifyAux_sublist (mx : Nat) (l : List SearchResult) :
    ∀ counts, (diversifyAux mx l counts).Sublist l := by
  induction l with
  | nil => intro counts; simp [diversifyAux]
  | cons r rest ih =>
    intro counts
    simp only [diversifyAux]
    split
    · exact (ih _).cons₂ r
    · exact (ih _).cons r

/-- Invariant of the diversification scan: the number of kept results with
a given source never exceeds the remaining quota for that source. -/
theorem diversifyAux_countP (mx : Nat) (src : String) (l : List SearchResult) :
    ∀ counts, (diversifyAux mx l counts).countP (fun r => r.source == src) ≤ mx - counts src := by
  induction l with
  | nil => intro counts; simp [diversifyAux]
  | cons r rest ih =>
    intro counts
    simp only [diversifyAux]
    split
    case isTrue hlt =>
      rw [List.countP_cons]
      by_cases hs : r.source = src
      · subst hs
        have h2 := ih (fun s => if s = r.source then counts r.source + 1 else counts s)
        simp only [eq_self_iff_true, if_true] at h2
        simp only [beq_self_eq_true, if_true]
        omega
      · have h2 := ih (fun s => if s = r.source then counts r.source + 1 else counts s)
        rw [if_neg (Ne.symm hs)] at h2
        have hb : (r.source == src) = false := by simp [hs]
        simp only [hb, Bool.false_eq_true, if_false, add_zero]
        exact h2
    case isFalse hge =>
      exact ih counts

/-- The duplicate-removal loop yields pairwise-distinct texts, none of which
was already in the seen set. -/
theorem removeDuplicateTexts_nodup (l : List WritingSuggestion) :
    ∀ seen, (((removeDuplicateTexts l seen).map (fun s => s.text)).Nodup) ∧
      (∀ t ∈ (removeDuplicateTexts l seen).map (fun s => s.text), t ∉ seen) := by
  induction l with
  | nil => intro seen; simp [removeDuplicateTexts]
  | cons s rest ih =>
    intro seen
    simp only [removeDuplicateTexts]
    split
    case isTrue h => exact ⟨(ih seen).1, (ih seen).2⟩
    case isFalse h =>
      obtain ⟨ihn, ihm⟩ := ih (s.text :: seen)
      have hmem : s.text ∉ (removeDuplicateTexts rest (s.text :: seen)).map (fun s => s.text) := by
        intro hin
        exact (ihm _ hin) (List.mem_cons_self _ _)
      refine ⟨?_, ?_⟩
      · simp only [List.map_cons, List.nodup_cons]
        exact ⟨hmem, ihn⟩
      · intro t ht
        simp only [List.map_cons, List.mem_cons] at ht
        rcases ht with rfl | ht
        · intro hseen
          exact h (List.elem_iff.mpr hseen)
        · intro hseen
          exact (ihm t ht) (List.mem_cons_of_mem _ hseen)

/-- Ranked suggestion lists never contain two suggestions with the same
text. -/
theorem rank_suggestions_text_nodup (suggestions : List WritingSuggestion)
    (text_analysis : TextAnalysis) :
    ((rank_suggestions suggestions text_analysis).map (fun s => s.text)).Nodup := by
  simp only [rank_suggestions]
  exact (removeDuplicateTexts_nodup _ []).1

/-! ## Claim theorems -/

/-- C1, counterexample: the claim "the score produced after each post-hoc
adjustment lies in [0,1]; scores are re-clamped to [0,1] after every
adjustment" is false.  The input score 1 lies in [0,1], yet the
query-specificity adjustment for the five-word query "a b c d e" returns
1.1, and no re-clamping takes place. -/
theorem c1_clamp_counterexample :
    (0:ℚ) ≤ 1 ∧ (1:ℚ) ≤ 1 ∧ ¬ adjust_for_query_specificity 1 "a b c d e" ≤ 1 := by
  refine ⟨by norm_num, by norm_num, ?_⟩
  have h : adjust_for_query_specificity 1 "a b c d e" = 1 * mkRat 11 10 := rfl
  rw [h, Rat.mkRat_eq_div]
  push_cast
  norm_num

/-- C1, amended: for an input score in [0,1], each post-hoc adjustment
(query-specificity adjustment and exact/partial-match boost) produces a
score in [0, 1.1]; only the verbatim-match branch of the boost clamps its
result, to at most 1.  Neither adjustment re-clamps to [0,1] in general. -/
theorem c1_adjusted_score_bounds (score : ℚ) (query content : String)
    (h0 : 0 ≤ score) (h1 : score ≤ 1) :
    (0 ≤ adjust_for_query_specificity score query ∧
      adjust_for_query_specificity score query ≤ mkRat 11 10) ∧
    (0 ≤ boost_exact_matches score query content ∧
      boost_exact_matches score query content ≤ mkRat 11 10) ∧
    (pyContains (pyLower content) (pyLower query) = true →
      boost_exact_matches score query content ≤ 1) := by
  have e11 : (mkRat 11 10 : ℚ) = 11/10 := by rw [Rat.mkRat_eq_div]; push_cast; norm_num
  have e9 : (mkRat 9 10 : ℚ) = 9/10 := by rw [Rat.mkRat_eq_div]; push_cast; norm_num
  have e6 : (mkRat 6 5 : ℚ) = 6/5 := by rw [Rat.mkRat_eq_div]; push_cast; norm_num
  refine ⟨?_, ?_, ?_⟩
  · simp only [adjust_for_query_specificity]
    split_ifs
    · rw [e9]; constructor <;> nlinarith
    · rw [e11]; constructor <;> nlinarith
    · rw [e11]; exact ⟨h0, by linarith⟩
  · simp only [boost_exact_matches]
    split_ifs
    · rw [e6, e11]
      exact ⟨le_min (by nlinarith) (by norm_num), le_trans (min_le_right _ _) (by norm_num)⟩
    · rw [e11]; constructor <;> nlinarith
    · rw [e11]; exact ⟨h0, by linarith⟩
  · intro hc
    simp only [boost_exact_matches, hc, if_true]
    exact min_le_right _ _

/-- C1, witness: the amended bounds evaluated at score 1/2, the five-word
query and an unrelated content string. -/
theorem c1_adjusted_score_bounds_witness :
    (0 ≤ adjust_for_query_specificity (mkRat 1 2) "a b c d e" ∧
      adjust_for_query_specificity (mkRat 1 2) "a b c d e" ≤ mkRat 11 10) ∧
    (0 ≤ boost_exact_matches (mkRat 1 2) "a b c d e" "some content" ∧
      boost_exact_matches (mkRat 1 2) "a b c d e" "some content" ≤ mkRat 11 10) ∧
    (pyContains (pyLower "some content") (pyLower "a b c d e") = true →
      boost_exact_matches (mkRat 1 2) "a b c d e" "some content" ≤ 1) :=
  c1_adjusted_score_bounds (mkRat 1 2) "a b c d e" "some content" (by decide) (by decide)

/-- C2, counterexample: the claim "for every non-empty current text,
context, non-empty candidate list and requested category the Synthesizer
returns at least 1 suggestion" is false.  With current text "hi" and one
candidate whose content is "a", every continuation strategy extracts no
pattern and `generate_suggestions` returns the empty list; the fallback
only fires when the candidate list itself is empty. -/
theorem c2_zero_suggestions_counterexample :
    "hi" ≠ "" ∧
    ¬ ([{ doc_id := "d1", content := "a", title := "t", source := "notion",
          vector_score := mkRat 8 10, final_score := mkRat 8 10,
          metadata := { text := "a", title := "t", source := "notion" },
          ranking_factors := ⟨0, 0, 0, 0, 0⟩ } ] = ([] : List SearchResult)) ∧
    generate_suggestions "hi" ""
      [{ doc_id := "d1", content := "a", title := "t", source := "notion",
         vector_score := mkRat 8 10, final_score := mkRat 8 10,
         metadata := { text := "a", title := "t", source := "notion" },
         ranking_factors := ⟨0, 0, 0, 0, 0⟩ }] "continuation" = [] := by
  refine ⟨by decide, by simp, by decide⟩

/-- C2, amended: for every current text, context, candidate list and
requested category, the Synthesizer returns at most 3 suggestions and no
two returned suggestions have identical text; it may however return zero
suggestions for a non-empty candidate list when no strategy extracts a
pattern (the at-least-one guarantee holds only for an empty candidate
list, where the fixed fallback is returned). -/
theorem c2_at_most_three_and_nodup (current_text context suggestion_type : String)
    (search_results : List SearchResult) :
    (generate_suggestions current_text context search_results suggestion_type).length ≤ 3 ∧
    ((generate_suggestions current_text context search_results suggestion_type).map
      (fun s => s.text)).Nodup := by
  cases search_results with
  | nil =>
    simp only [generate_suggestions, generate_fallback_suggestions]
    exact ⟨by norm_num, by simp⟩
  | cons r rs =>
    constructor
    · simp only [generate_suggestions]
      rw [List.length_take]
      exact min_le_left _ _
    · simp only [generate_suggestions]
      rw [List.map_take]
      exact ((rank_suggestions_text_nodup _ _).sublist (List.take_sublist _ _))

/-- C3, confirmed: source diversification returns a sublist (subsequence,
hence order-preserving and never longer) of its input in which every source
appears at most `N` times; the source's default cap is 3. -/
theorem c3_diversify_sources_invariant (results : List SearchResult) (N : Nat) :
    (diversify_sources results N).Sublist results ∧
    (diversify_sources results N).length ≤ results.length ∧
    (∀ src : String, ((diversify_sources results N).map (fun r => r.source)).count src ≤ N) ∧
    diversify_sources results = diversify_sources results 3 := by
  have hsub : (diversify_sources results N).Sublist results :=
    diversifyAux_sublist N results (fun _ => 0)
  refine ⟨hsub, hsub.length_le, ?_, rfl⟩
  intro src
  have h := diversifyAux_countP N src results (fun _ => 0)
  calc ((diversify_sources results N).map (fun r => r.source)).count src
      = (diversify_sources results N).countP (fun r => r.source == src) := by
        rw [List.count_eq_countP, List.countP_map]; rfl
    _ ≤ N - 0 := h
    _ ≤ N := by omega

/-- C4, counterexample: the claim "for every score, a candidate containing
the verbatim query never scores lower after the exact-match boost" is
false for scores above 1, which the pipeline itself produces (the
query-specificity adjustment scales by 1.1 without clamping): at score 1.1
the boost returns min(1.1 × 1.2, 1.0) = 1 < 1.1. -/
theorem c4_boost_monotone_counterexample :
    pyContains (pyLower "a") (pyLower "a") = true ∧
    ¬ boost_exact_matches (mkRat 11 10) "a" "a" ≥ mkRat 11 10 := by
  refine ⟨by decide, ?_⟩
  have h : boost_exact_matches (mkRat 11 10) "a" "a" = min (mkRat 11 10 * mkRat 6 5) 1 := rfl
  have e11 : (mkRat 11 10 : ℚ) = 11/10 := by rw [Rat.mkRat_eq_div]; push_cast; norm_num
  rw [h, e11]
  intro hge
  have := le_trans hge (min_le_right _ _)
  norm_num at this

/-- C4, amended: for every score in [0,1] and every query/content pair
where the lowercased query appears verbatim in the lowercased content, the
exact-match boost never lowers the score. -/
theorem c4_boost_monotone_on_unit_interval (score : ℚ) (query content : String)
    (h0 : 0 ≤ score) (h1 : score ≤ 1)
    (hc : pyContains (pyLower content) (pyLower query) = true) :
    boost_exact_matches score query content ≥ score := by
  simp only [boost_exact_matches, hc, if_true]
  have e6 : (mkRat 6 5 : ℚ) = 6/5 := by rw [Rat.mkRat_eq_div]; push_cast; norm_num
  rw [e6, ge_iff_le]
  exact le_min (by nlinarith) h1

/-- C4, witness: the amended monotonicity at score 1/2, query "a" and
content "ab". -/
theorem c4_boost_monotone_on_unit_interval_witness :
    boost_exact_matches (mkRat 1 2) "a" "ab" ≥ mkRat 1 2 :=
  c4_boost_monotone_on_unit_interval (mkRat 1 2) "a" "ab" (by decide) (by decide) (by decide)

/-- C5, counterexample: with an empty candidate list the Synthesizer does
return exactly one fallback suggestion, but its `reasoning` field is the
string "Fallback suggestion - no similar content found", not the claimed
literal "no similar content found". -/
theorem c5_fallback_reasoning_counterexample :
    (generate_suggestions "frontend developer job" "" [] "continuation").length = 1 ∧
    (generate_suggestions "frontend developer job" "" [] "continuation").map
      (fun s => s.reasoning) ≠ ["no similar content found"] := by
  exact ⟨by decide, by decide⟩

/-- C5, amended: for every current text, context and requested category,
an empty candidate list yields exactly one fallback suggestion with
confidence 0.3, suggestion type "fallback" and reasoning "Fallback
suggestion - no similar content found" (which contains the claimed phrase
"no similar content found" as a substring), and the path is total — it
cannot raise. -/
theorem c5_fallback_suggestion_exact (current_text context suggestion_type : String) :
    generate_suggestions current_text context [] suggestion_type =
      [{ text := "continues with clear purpose and direction."
         confidence := mkRat 3 10
         reasoning := "Fallback suggestion - no similar content found"
         source_context := "Generic suggestion"
         suggestion_type := "fallback" }] ∧
    pyContains "Fallback suggestion - no similar content found" "no similar content found" = true :=
  ⟨rfl, by decide⟩

/-- C6, confirmed: the temporal-relevance factor is the documented step
function of content age (1.0 for ≤7 days, 0.8 for ≤30, 0.6 for ≤90, 0.4
for ≤365, 0.2 otherwise, 0.5 for a missing or unparsable timestamp), and
for two candidates identical except for ages 3 days and 400 days with
identical raw similarity 0.8, the recent one's composite score strictly
exceeds the old one's. -/
theorem c6_temporal_relevance_step :
    (∀ payload : Payload, payload.timestamp = none →
      calculate_temporal_score payload = mkRat 1 2) ∧
    (∀ (payload : Payload) (age_days : Int), payload.timestamp = some age_days →
      calculate_temporal_score payload =
        (if age_days ≤ 7 then 1
         else if age_days ≤ 30 then mkRat 8 10
         else if age_days ≤ 90 then mkRat 6 10
         else if age_days ≤ 365 then mkRat 4 10
         else mkRat 2 10)) ∧
    (∀ (payload : Payload) (id₁ id₂ query context : String) (hint : Option String),
      (calculate_hybrid_score ⟨id₁, mkRat 8 10, { payload with timestamp := some 3 }⟩
        query context hint).total >
      (calculate_hybrid_score ⟨id₂, mkRat 8 10, { payload with timestamp := some 400 }⟩
        query context hint).total) := by
  refine ⟨?_, ?_, ?_⟩
  · intro p h; simp [calculate_temporal_score, h]
  · intro p d h; simp [calculate_temporal_score, h]
  · intro p id₁ id₂ q c hint
    rw [hybrid_total_factors, hybrid_total_factors]
    have h3 : calculate_temporal_score ({ p with timestamp := some 3 } : Payload) = 1 := by
      simp [calculate_temporal_score]
    have h400 : calculate_temporal_score ({ p with timestamp := some 400 } : Payload) = mkRat 2 10 := by
      simp only [calculate_temporal_score]
      norm_num
    have hsrc : calculate_source_score ({ p with timestamp := some 400 } : Payload) c =
        calculate_source_score ({ p with timestamp := some 3 } : Payload) c := rfl
    have hct : calculate_content_type_score ({ p with timestamp := some 400 } : Payload) hint =
        calculate_content_type_score ({ p with timestamp := some 3 } : Payload) hint := rfl
    have heng : calculate_engagement_score ({ p with timestamp := some 400 } : Payload) =
        calculate_engagement_score ({ p with timestamp := some 3 } : Payload) := rfl
    show (⟨id₁, mkRat 8 10, { p with timestamp := some 3 }⟩ : VecResult).score * mkRat 6 10 + _ + _ + _ + _ >
      (⟨id₂, mkRat 8 10, { p with timestamp := some 400 }⟩ : VecResult).score * mkRat 6 10 + _ + _ + _ + _
    rw [h3, h400, hsrc, hct, heng]
    have e15 : (mkRat 15 100 : ℚ) = 15/100 := by rw [Rat.mkRat_eq_div]; push_cast; norm_num
    have e2 : (mkRat 2 10 : ℚ) = 2/10 := by rw [Rat.mkRat_eq_div]; push_cast; norm_num
    rw [e15, e2]
    have hvs : ((⟨id₁, mkRat 8 10, { p with timestamp := some 3 }⟩ : VecResult)).score =
        ((⟨id₂, mkRat 8 10, { p with timestamp := some 400 }⟩ : VecResult)).score := rfl
    rw [hvs]
    nlinarith [sq_nonneg (1:ℚ)]

/-- C6, witness: the step function evaluated at a missing timestamp and at
age 40 days, and the composite-score comparison at two concrete candidates
identical apart from ages 3 and 400 days. -/
theorem c6_temporal_relevance_step_witness :
    calculate_temporal_score ⟨"", "", "", none, ""⟩ = mkRat 1 2 ∧
    calculate_temporal_score ⟨"", "", "", some 40, ""⟩ =
      (if (40:Int) ≤ 7 then 1
       else if (40:Int) ≤ 30 then mkRat 8 10
       else if (40:Int) ≤ 90 then mkRat 6 10
       else if (40:Int) ≤ 365 then mkRat 4 10
       else mkRat 2 10) ∧
    (calculate_hybrid_score ⟨"a", mkRat 8 10, ⟨"txt", "a title", "gmail", some 3, "job_related"⟩⟩
        "q" "ctx" none).total >
      (calculate_hybrid_score ⟨"b", mkRat 8 10, ⟨"txt", "a title", "gmail", some 400, "job_related"⟩⟩
        "q" "ctx" none).total :=
  ⟨c6_temporal_relevance_step.1 _ rfl,
   c6_temporal_relevance_step.2.1 _ 40 rfl,
   c6_temporal_relevance_step.2.2 ⟨"txt", "a title", "gmail", some 0, "job_related"⟩
     "a" "b" "q" "ctx" none⟩

/-- C7, counterexample: the claim that a word-overlap of at least 70%
earns the ×1.1 partial-match boost is false at exactly 70%: for a ten-word
query and a content containing exactly seven of its words (and not the full
query verbatim), the source requires a ratio strictly greater than 0.7 and
leaves the score unchanged. -/
theorem c7_partial_boost_counterexample :
    pyContains (pyLower "a b c d e f g") (pyLower "a b c d e f g h i j") = false ∧
    matchRatioFn "a b c d e f g h i j" "a b c d e f g" = mkRat 7 10 ∧
    boost_exact_matches (mkRat 1 2) "a b c d e f g h i j" "a b c d e f g" = mkRat 1 2 ∧
    mkRat 1 2 ≠ mkRat 1 2 * mkRat 11 10 := by
  refine ⟨by decide, by decide, rfl, ?_⟩
  have e2 : (mkRat 1 2 : ℚ) = 1/2 := by rw [Rat.mkRat_eq_div]; push_cast; norm_num
  have e11 : (mkRat 11 10 : ℚ) = 11/10 := by rw [Rat.mkRat_eq_div]; push_cast; norm_num
  rw [e2, e11]
  norm_num

/-- C7, amended: when the full lowercased query does not occur verbatim in
the lowercased content and the word-overlap ratio is strictly greater than
0.7, the partial-match boost multiplies the score by 1.1. -/
theorem c7_partial_boost_strict_threshold (score : ℚ) (query content : String)
    (hnc : pyContains (pyLower content) (pyLower query) = false)
    (hr : matchRatioFn query content > mkRat 7 10) :
    boost_exact_matches score query content = score * mkRat 11 10 := by
  simp only [boost_exact_matches, hnc, Bool.false_eq_true, if_false, hr, if_true]

/-- C7, witness: the strict-threshold boost at score 1/2 with a ten-word
query whose words overlap the content at ratio 0.8. -/
theorem c7_partial_boost_strict_threshold_witness :
    boost_exact_matches (mkRat 1 2) "a b c d e f g h i j" "a b c d e f g h" =
      mkRat 1 2 * mkRat 11 10 :=
  c7_partial_boost_strict_threshold (mkRat 1 2) "a b c d e f g h i j" "a b c d e f g h"
    (by decide) (by decide)

/-- C8, confirmed: for non-empty vector, id and payload lists, the
store-vectors operation raises (an error propagated to the caller) exactly
when the three lists do not all have the same length. -/
theorem c8_store_vectors_error_iff_length_mismatch {α : Type} (vectors : List (List ℚ))
    (ids : List String) (payloads : List α)
    (hv : vectors ≠ []) (hi : ids ≠ []) (hp : payloads ≠ []) :
    (∃ msg, VectorService.store_vectors vectors ids payloads = Except.error msg) ↔
      ¬ (vectors.length = ids.length ∧ vectors.length = payloads.length) := by
  simp only [VectorService.store_vectors]
  rw [if_neg (by simp [List.isEmpty_iff, hv, hi, hp])]
  by_cases hlen : vectors.length ≠ ids.length ∨ vectors.length ≠ payloads.length
  · rw [if_pos hlen]
    constructor
    · intro _
      tauto
    · intro _
      exact ⟨_, rfl⟩
  · rw [if_neg hlen]
    push_neg at hlen
    constructor
    · rintro ⟨msg, hmsg⟩
      exact absurd hmsg (by simp)
    · intro hcon
      exact absurd ⟨hlen.1, hlen.2⟩ hcon

/-- C8, witness: one vector with two ids and one payload raises. -/
theorem c8_store_vectors_error_iff_length_mismatch_witness :
    ∃ msg, VectorService.store_vectors [[(1:ℚ)]] ["a", "b"] [(0:Nat)] = Except.error msg :=
  (c8_store_vectors_error_iff_length_mismatch [[(1:ℚ)]] ["a", "b"] [(0:Nat)]
    (by decide) (by decide) (by decide)).mpr (by decide)

/-- C9, confirmed: every result returned by the hybrid search pipeline is
exactly the `SearchResult` constructed from one retrieved vector result,
whose `vector_score` field is that input's raw similarity score unchanged —
hybrid scoring only fills `final_score`, and sorting, filtering and
truncation only select among these records. -/
theorem c9_vector_score_preserved (vector_results : List VecResult) (query context : String)
    (top_k : Nat) (source_filter content_type_hint : Option String) (res : SearchResult)
    (hres : res ∈ HybridSearchEngine.search vector_results query context top_k
      source_filter content_type_hint) :
    ∃ vr ∈ vector_results, res = toSearchResult vr query context content_type_hint ∧
      res.vector_score = vr.score := by
  have hmem : res ∈ vector_results.map (fun r => toSearchResult r query context content_type_hint) := by
    cases vector_results with
    | nil => simp [HybridSearchEngine.search] at hres
    | cons v vs =>
      cases source_filter with
      | none =>
        simp only [HybridSearchEngine.search] at hres
        exact (List.perm_insertionSort _ _).mem_iff.mp (List.mem_of_mem_take hres)
      | some f =>
        simp only [HybridSearchEngine.search] at hres
        have h1 := List.mem_of_mem_take hres
        by_cases hf : f = ""
        · rw [if_pos hf] at h1
          exact (List.perm_insertionSort _ _).mem_iff.mp h1
        · rw [if_neg hf] at h1
          exact (List.perm_insertionSort _ _).mem_iff.mp (List.mem_of_mem_filter h1)
  obtain ⟨vr, hvr, heq⟩ := List.mem_map.mp hmem
  refine ⟨vr, hvr, heq.symm, ?_⟩
  rw [← heq]
  rfl

/-- C9, witness: the preservation statement evaluated on a singleton
retrieval list. -/
theorem c9_vector_score_preserved_witness :
    ∃ vr ∈ [(⟨"d1", mkRat 8 10, ⟨"some text", "a title", "gmail", some 3, "job_related"⟩⟩ : VecResult)],
      toSearchResult ⟨"d1", mkRat 8 10, ⟨"some text", "a title", "gmail", some 3, "job_related"⟩⟩
          "q" "ctx" none =
        toSearchResult vr "q" "ctx" none ∧
      (toSearchResult ⟨"d1", mkRat 8 10, ⟨"some text", "a title", "gmail", some 3, "job_related"⟩⟩
          "q" "ctx" none).vector_score = vr.score :=
  c9_vector_score_preserved _ "q" "ctx" 10 none none _ (List.mem_singleton.mpr rfl)

/-- C10, confirmed: a requested suggestion category outside the three known
ones (continuation, completion, enhancement) silently dispatches to the
continuation strategy set — the output is identical to a "continuation"
request, with no failure and no report of the unknown category. -/
theorem c10_unknown_category_dispatch (current_text context : String)
    (search_results : List SearchResult) (suggestion_type : String)
    (h1 : suggestion_type ≠ "continuation") (h2 : suggestion_type ≠ "completion")
    (h3 : suggestion_type ≠ "enhancement") :
    generate_suggestions current_text context search_results suggestion_type =
      generate_suggestions current_text context search_results "continuation" := by
  have hd : suggestion_patterns_get suggestion_type = suggestion_patterns_get "continuation" := by
    simp only [suggestion_patterns_get, if_neg h1, if_neg h2, if_neg h3]
    rfl
  cases search_results with
  | nil => rfl
  | cons r rs => simp only [generate_suggestions, hd]

/-- C10, witness: the misspelled category "continuatoin" produces exactly
the continuation-category output on a concrete non-empty candidate list. -/
theorem c10_unknown_category_dispatch_witness :
    generate_suggestions "hi" ""
      [{ doc_id := "d2", content := "b", title := "u", source := "gmail",
         vector_score := mkRat 1 2, final_score := mkRat 1 2,
         metadata := { text := "b", title := "u", source := "gmail" },
         ranking_factors := ⟨0, 0, 0, 0, 0⟩ }] "continuatoin" =
    generate_suggestions "hi" ""
      [{ doc_id := "d2", content := "b", title := "u", source := "gmail",
         vector_score := mkRat 1 2, final_score := mkRat 1 2,
         metadata := { text := "b", title := "u", source := "gmail" },
         ranking_factors := ⟨0, 0, 0, 0, 0⟩ }] "continuation" :=
  c10_unknown_category_dispatch "hi" "" _ "continuatoin" (by decide) (by decide) (by decide)
